import Mathlib

/-!
# simpletgbot: a location-aware message relay (`bot.go`)

A shallow embedding of the three handlers of `bot.go` (`meHandler`, `textHandler`,
`allMsgs`), of `getLocation`, and of the dispatch loop of `main`, together with the
two MongoDB collections (`persons`, `messages`) they read and write.

Conventions of the embedding.

* A Go `error` is an `Option String`: `none` is `nil`, `some s` is an error whose
  `Error()` text is `s`.
* A `float64` coordinate is a rational number.  The handlers only copy coordinates;
  they never compute with them.
* A `time.Time` is a number of nanoseconds since the Unix epoch.
* Everything a handler obtains from outside (the clock readings of `time.Now()`,
  the error returned by a collection operation) is an explicit argument.
* A collection operation that returns an error leaves the collection as it was.
* `sendReply` appends one `Reply` to the list of replies the handler returns.
* `log.Printf` has no effect on the store or on the replies and is left out.
-/

namespace SimpleTgBot

/-! ## Data model -/

/-- Go `float64`; the values that reach the handlers are finite. -/
abbrev float64 := ℚ

/-- Go `time.Time`, as nanoseconds since the Unix epoch. -/
abbrev Time := Nat

/-- Go `error`: `none` is `nil`, `some s` carries the text of `Error()`. -/
abbrev error := Option String

/-- The struct `geoJSON`; `Coordinates` is the array `[2]float64`, `Coordinates.1` being
index 0 and `Coordinates.2` index 1. -/
structure geoJSON where
  type : String
  Coordinates : float64 × float64
  deriving DecidableEq, Repr

/-- The struct `person`. -/
structure person where
  ID : Int
  Lat : float64
  Lon : float64
  Loc : geoJSON
  When : Time
  deriving DecidableEq, Repr

/-- A `bson.ObjectId`: a string of twelve bytes. -/
abbrev ObjectId := List Nat

/-- The struct `message`. -/
structure message where
  ID : ObjectId
  Text : String
  When : Time
  Loc : geoJSON
  deriving DecidableEq, Repr

/-- Zero value of `geoJSON`. -/
def geoJSON.zero : geoJSON := { type := "", Coordinates := (0, 0) }

/-- Zero value `person{}`. -/
def person.zero : person := { ID := 0, Lat := 0, Lon := 0, Loc := geoJSON.zero, When := 0 }

/-! ## The incoming update (the fields of `tgbotapi.Update` the handlers read) -/

/-- The type `tgbotapi.Location`. -/
structure Location where
  Longitude : float64
  Latitude : float64
  deriving DecidableEq, Repr

/-- The fields of `tgbotapi.Message` read by the handlers: `From.ID`, `Chat.ID`, `Text`
and the pointer `Location` (`none` is `nil`). -/
structure Message where
  FromID : Int
  ChatID : Int
  Text : String
  Location : Option Location
  deriving DecidableEq, Repr

/-- One outgoing message: what `sendReply bot id text` hands to `bot.Send`. -/
structure Reply where
  chat : Int
  text : String
  deriving DecidableEq, Repr

/-- The function `sendReply`: one reply, to chat `id`, with text `text`. -/
def sendReply (id : Int) (text : String) : List Reply := [{ chat := id, text := text }]

/-! ## The store: the database `geobot` with its two collections -/

/-- A document of the collection `persons`: the `_id` MongoDB keeps for it, and the
fields of the `person` struct (bson keys `id`, `lat`, `lon`, `loc`, `when`). -/
structure personDoc where
  _id : Int
  doc : person
  deriving DecidableEq, Repr

/-- The database handle `*mgo.Database`: collections `persons` and `messages`, each
in insertion order. -/
structure Database where
  persons : List personDoc
  messages : List message
  deriving DecidableEq, Repr

/-- A freshly created database. -/
def Database.empty : Database := { persons := [], messages := [] }

/-- A bson date keeps milliseconds: the nanoseconds below a millisecond are cut. -/
def bsonTime (t : Time) : Time := t / 1000000 * 1000000

/-- The call `Upsert(bson.M{"_id": k}, &p)` on `persons`: the document whose `_id` is
`k` is replaced by `p` (keeping its `_id`); when there is none, `p` is inserted with
`_id = k`. -/
def upsert (k : Int) (p : person) : List personDoc → List personDoc
  | [] => [{ _id := k, doc := { p with When := bsonTime p.When } }]
  | d :: ds =>
    if d._id = k then { _id := k, doc := { p with When := bsonTime p.When } } :: ds
    else d :: upsert k p ds

/-- The call `Find(bson.M{"id": id}).One(&result)` on `persons`, when the query
reaches the server: the first document whose field `id` equals `id`. -/
def findOne (id : Int) : List personDoc → Option person
  | [] => none
  | d :: ds => if d.doc.ID = id then some d.doc else findOne id ds

/-- The call `Insert(&envelope)` on `messages`: the log grows at its end. -/
def insert (m : message) (ms : List message) : List message :=
  ms ++ [{ m with When := bsonTime m.When }]

/-- The text of `mgo.ErrNotFound`. -/
def ErrNotFound : String := "not found"

/-- What the handlers use and the source does not define. `dist a b` is the great-circle
distance in meters between two points of the sphere, each given as a pair read the way
`$geometry` and the `2dsphere` index read `coordinates`: longitude at index 0, latitude
at index 1. `format` is the rendering `When.Format("2006-01-02 15:04:05")` of a time. -/
structure Env where
  dist : float64 × float64 → float64 × float64 → ℚ
  format : Time → String

/-- Order of `Sort("-when")`: later first. -/
def laterFirst (a b : message) : Prop := b.When ≤ a.When

instance : DecidableRel laterFirst := fun a b => inferInstanceAs (Decidable (b.When ≤ a.When))

instance : IsTotal message laterFirst := ⟨fun a b => Nat.le_total b.When a.When⟩

instance : IsTrans message laterFirst := ⟨fun _ _ _ hab hbc => Nat.le_trans hbc hab⟩

/-- The query of `allMsgs` on `messages`: `$nearSphere` around `center` with
`$maxDistance` `maxDistance`, then `Sort("-when")`, then `Limit(limit)`. The server
hands `center` and the stored `loc.coordinates` to the distance as they are, index 0
in the place of the longitude. -/
def findNear (env : Env) (center : float64 × float64) (maxDistance : ℚ) (limit : Nat)
    (ms : List message) : List message :=
  ((ms.filter (fun m => decide (env.dist center m.Loc.Coordinates ≤ maxDistance))).insertionSort
    laterFirst).take limit

/-! ## `bson.NewObjectIdWithTime` -/

/-- The method `Time.Unix`: whole seconds since the epoch. -/
def Unix (t : Time) : Nat := t / 1000000000

/-- The call `binary.BigEndian.PutUint32`: the four bytes of `v`, most significant first. -/
def PutUint32 (v : Nat) : List Nat :=
  [v / 2 ^ 24 % 256, v / 2 ^ 16 % 256, v / 2 ^ 8 % 256, v % 256]

/-- The function `bson.NewObjectIdWithTime`: the first four bytes hold `uint32(t.Unix())`,
the other eight are zero. -/
def NewObjectIdWithTime (t : Time) : ObjectId :=
  PutUint32 (Unix t % 2 ^ 32) ++ List.replicate 8 0

/-! ## The handlers -/

/-- The function `getLocation`. `ioErr` is the error of the query when it does not
reach the server; otherwise `One` gives the first match, or `ErrNotFound`. In every
case the function returns `result.Loc`, which is the zero value on error. -/
def getLocation (db : Database) (id : Int) (ioErr : error) : geoJSON × error :=
  match ioErr with
  | some e => (person.zero.Loc, some e)
  | none =>
    match findOne id db.persons with
    | some result => (result.Loc, none)
    | none => (person.zero.Loc, some ErrNotFound)

/-- The line built for one message by `allMsgs`: `fmt.Sprintf("[%s] %s", ...)`. -/
def body (env : Env) (m : message) : String :=
  "[" ++ env.format m.When ++ "] " ++ m.Text

/-- The function `allMsgs`. `findErr` is the outside error of the `persons` query,
`err2` the error of the `messages` query. The store is only read. -/
def allMsgs (env : Env) (db : Database) (msg : Message) (findErr err2 : error) : List Reply :=
  match getLocation db msg.FromID findErr with
  | (_, some _) => sendReply msg.ChatID "Set position first"
  | (loc, none) =>
    match err2 with
    | some e => sendReply msg.ChatID e
    | none =>
      (findNear env loc.Coordinates 200 100 db.messages).flatMap
        (fun m => sendReply msg.ChatID (body env m))

/-- The function `textHandler`. `now` and `now2` are the two readings of `time.Now()`
(for the identifier and for `When`), `findErr` the outside error of the `persons`
query, `err2` the error of `Insert`. -/
def textHandler (db : Database) (msg : Message) (now now2 : Time) (findErr err2 : error) :
    Database × List Reply :=
  match getLocation db msg.FromID findErr with
  | (_, some _) => (db, sendReply msg.ChatID "Set position first")
  | (loc, none) =>
    let envelope : message :=
      { ID := NewObjectIdWithTime now, Text := msg.Text, When := now2, Loc := loc }
    match err2 with
    | some e => (db, sendReply msg.ChatID ("Error while saving message (" ++ e ++ ")"))
    | none => ({ db with messages := insert envelope db.messages }, sendReply msg.ChatID "ok")

/-- The position `meHandler` builds from a location:
`geoJSON{Type: "Point", Coordinates: [2]float64{Latitude, Longitude}}`. -/
def pointOf (loc : Location) : geoJSON :=
  { type := "Point", Coordinates := (loc.Latitude, loc.Longitude) }

/-- The function `meHandler`. `loc` is `msg.Location` (`main` calls the handler only
when that pointer is not `nil`), `now` the reading of `time.Now()`, `err` the error of
`Upsert`. The fields `Lat` and `Lon` of `p` are not set and keep their zero value. -/
def meHandler (db : Database) (msg : Message) (loc : Location) (now : Time) (err : error) :
    Database × List Reply :=
  let p : person :=
    { ID := msg.FromID
      Lat := 0
      Lon := 0
      Loc := pointOf loc
      When := now }
  let db1 : Database :=
    match err with
    | some _ => db
    | none => { db with persons := upsert p.ID p db.persons }
  (db1, sendReply msg.ChatID "Position set")

/-- One turn of the loop of `main`: the update, and what the handler it reaches obtains
from outside. `Message = none` is a `nil` message. -/
structure Event where
  Message : Option Message
  now : Time
  now2 : Time
  findErr : error
  storeErr : error

/-- The body of the loop `for update := range updates` of `main`. -/
def dispatch (env : Env) (db : Database) (ev : Event) : Database × List Reply :=
  match ev.Message with
  | none => (db, [])
  | some msg =>
    if msg.Text = "/new" then (db, [])
    else if msg.Text = "/all" then (db, allMsgs env db msg ev.findErr ev.storeErr)
    else
      match msg.Location with
      | some loc => meHandler db msg loc ev.now ev.storeErr
      | none =>
        if msg.Text ≠ "" then textHandler db msg ev.now ev.now2 ev.findErr ev.storeErr
        else (db, sendReply msg.ChatID "test")

/-- The loop of `main` over a finite run of updates: the final store and all replies. -/
def run (env : Env) : List Event → Database → Database × List Reply
  | [], db => (db, [])
  | ev :: evs, db =>
    let r := dispatch env db ev
    let r2 := run env evs r.1
    (r2.1, r.2 ++ r2.2)

/-- A run of `meHandler` over a list of position updates of one user whose upserts all
succeed: each item is the chat, the position and the clock reading. -/
def setLocations (u : Int) : List (Int × Location × Time) → Database → Database
  | [], db => db
  | (c, loc, now) :: rest, db =>
    setLocations u rest
      (meHandler db { FromID := u, ChatID := c, Text := "", Location := some loc } loc now none).1

/-- A concrete environment for evaluation: two coordinate pairs are 0 meters apart when
equal and 1000 meters apart otherwise, and a time is rendered as its number of seconds. -/
def Env.sample : Env :=
  { dist := fun a b => if a = b then 0 else 1000
    format := fun t => toString (Unix t) }

/-- A stored record of user 7, at latitude 52 and longitude 13. -/
def Sample.person7 : person :=
  { ID := 7, Lat := 0, Lon := 0, Loc := { type := "Point", Coordinates := (52, 13) }, When := 0 }

/-- A store with the record of user 7 and three messages: two posted where user 7
stands, one posted elsewhere. -/
def Sample.db : Database :=
  { persons := [{ _id := 7, doc := Sample.person7 }]
    messages :=
      [{ ID := NewObjectIdWithTime 1000000000, Text := "first", When := 1000000000,
         Loc := { type := "Point", Coordinates := (52, 13) } },
       { ID := NewObjectIdWithTime 2000000000, Text := "far", When := 2000000000,
         Loc := { type := "Point", Coordinates := (0, 0) } },
       { ID := NewObjectIdWithTime 3000000000, Text := "second", When := 3000000000,
         Loc := { type := "Point", Coordinates := (52, 13) } }] }

/-- The update "/all" sent by user 7. -/
def Sample.all : Message := { FromID := 7, ChatID := 70, Text := "/all", Location := none }

/-- The update "hello" sent by user 7. -/
def Sample.hello : Message := { FromID := 7, ChatID := 70, Text := "hello", Location := none }

/-- The update "again" sent by user 7. -/
def Sample.again : Message := { FromID := 7, ChatID := 70, Text := "again", Location := none }

/-- The position update of user 7 to latitude 0, longitude 0. -/
def Sample.move : Message :=
  { FromID := 7, ChatID := 70, Text := "", Location := some { Longitude := 0, Latitude := 0 } }

/-- A later run: user 7 moves to latitude 0, longitude 0, and posts "again". -/
def Sample.later : List Event :=
  [{ Message := some Sample.move, now := 6000000000, now2 := 6000000000,
     findErr := none, storeErr := none },
   { Message := some Sample.again, now := 7000000000, now2 := 7000000000,
     findErr := none, storeErr := none }]

/-- The point of the sphere a reported location denotes, as the pair `dist` expects:
longitude first, latitude second. -/
def Location.lonLat (loc : Location) : float64 × float64 := (loc.Longitude, loc.Latitude)

/-- Where user 1 posts: latitude 13.088, longitude 80.27. -/
def Far.posterLoc : Location := { Longitude := 80.27, Latitude := 13.088 }

/-- Where user 7 stands: latitude 13.08, longitude 80.27, 0.008 degrees of latitude
(about 890 meters) south of `Far.posterLoc`. -/
def Far.userLoc : Location := { Longitude := 80.27, Latitude := 13.08 }

/-- The position update of user 1. -/
def Far.posterMove : Message :=
  { FromID := 1, ChatID := 10, Text := "", Location := some Far.posterLoc }

/-- The update "hello" sent by user 1. -/
def Far.posterText : Message := { FromID := 1, ChatID := 10, Text := "hello", Location := none }

/-- The position update of user 7. -/
def Far.userMove : Message :=
  { FromID := 7, ChatID := 70, Text := "", Location := some Far.userLoc }

/-- The store after user 1 reports `Far.posterLoc` and posts "hello", and user 7
reports `Far.userLoc`; every store call succeeds. -/
def Far.db : Database :=
  (meHandler
    (textHandler (meHandler Database.empty Far.posterMove Far.posterLoc 1000000000 none).1
      Far.posterText 2000000000 2000000000 none none).1
    Far.userMove Far.userLoc 3000000000 none).1

/-- The difference of two rationals, without sign. -/
def absDiff (a b : ℚ) : ℚ := if a ≤ b then b - a else a - b

/-- Bhaskara's rational approximation of the cosine of an angle of `x` degrees, for `x`
between -90 and 90. -/
def cosDeg (x : ℚ) : ℚ := (32400 - 4 * x ^ 2) / (32400 + x ^ 2)

/-- A concrete environment whose distance approximates the great-circle distance of two
nearby points given longitude first: 111195 meters per degree of latitude, plus as
much per degree of longitude scaled by the cosine of the latitude of the first point. -/
def Env.grid : Env :=
  { dist := fun a b => 111195 * (absDiff a.2 b.2 + cosDeg a.2 * absDiff a.1 b.1)
    format := fun t => toString (Unix t) }

/-- The invariant of the collection `persons`: the `_id` of every document equals its
field `id`, and no two documents share an `_id`. -/
def WellKeyed (c : List personDoc) : Prop :=
  (∀ d ∈ c, d._id = d.doc.ID) ∧ (c.map (fun d => d._id)).Nodup

/-! ## The collection `persons` under `upsert` -/

theorem mem_upsert {k : Int} {p : person} {c : List personDoc} {d : personDoc}
    (h : d ∈ upsert k p c) :
    d ∈ c ∨ d = { _id := k, doc := { p with When := bsonTime p.When } } := by
  induction c with
  | nil =>
    simp only [upsert, List.mem_singleton] at h
    exact Or.inr h
  | cons a as ih =>
    simp only [upsert] at h
    split at h
    · rcases List.mem_cons.1 h with h1 | h1
      · exact Or.inr h1
      · exact Or.inl (List.mem_cons_of_mem _ h1)
    · rcases List.mem_cons.1 h with h1 | h1
      · exact Or.inl (h1 ▸ List.mem_cons_self _ _)
      · rcases ih h1 with h2 | h2
        · exact Or.inl (List.mem_cons_of_mem _ h2)
        · exact Or.inr h2

theorem mem_keys_upsert {k : Int} {p : person} {c : List personDoc} {j : Int}
    (h : j ∈ (upsert k p c).map (fun d => d._id)) :
    j ∈ c.map (fun d => d._id) ∨ j = k := by
  obtain ⟨d, hd, rfl⟩ := List.mem_map.1 h
  rcases mem_upsert hd with h1 | h1
  · exact Or.inl (List.mem_map.2 ⟨d, h1, rfl⟩)
  · exact Or.inr (by rw [h1])

theorem nodup_keys_upsert (k : Int) (p : person) (c : List personDoc)
    (h : (c.map (fun d => d._id)).Nodup) : ((upsert k p c).map (fun d => d._id)).Nodup := by
  induction c with
  | nil => simp [upsert]
  | cons a as ih =>
    have ha := List.nodup_cons.1 h
    simp only [upsert]
    split
    · rename_i hk
      simp only [List.map_cons, List.nodup_cons]
      exact ⟨hk ▸ ha.1, ha.2⟩
    · rename_i hk
      simp only [List.map_cons, List.nodup_cons]
      refine ⟨fun hmem => ?_, ih ha.2⟩
      rcases mem_keys_upsert hmem with h1 | h1
      · exact ha.1 h1
      · exact hk h1

theorem wellKeyed_upsert (p : person) (c : List personDoc) (h : WellKeyed c) :
    WellKeyed (upsert p.ID p c) := by
  refine ⟨fun d hd => ?_, nodup_keys_upsert _ _ _ h.2⟩
  rcases mem_upsert hd with h1 | h1
  · exact h.1 d h1
  · rw [h1]

theorem findOne_upsert (p : person) (c : List personDoc) (h : ∀ d ∈ c, d._id = d.doc.ID) :
    findOne p.ID (upsert p.ID p c) = some { p with When := bsonTime p.When } := by
  induction c with
  | nil => simp [upsert, findOne]
  | cons a as ih =>
    have ha : a._id = a.doc.ID := h a (List.mem_cons_self _ _)
    simp only [upsert]
    split
    · simp [findOne]
    · rename_i hk
      have hne : ¬ a.doc.ID = p.ID := fun e => hk (ha.trans e)
      simp only [findOne, hne, if_false]
      exact ih (fun d hd => h d (List.mem_cons_of_mem _ hd))

theorem filter_id_length_le_one (u : Int) (c : List personDoc) (h : WellKeyed c) :
    (c.filter (fun d => decide (d.doc.ID = u))).length ≤ 1 := by
  obtain ⟨h1, h2⟩ := h
  induction c with
  | nil => simp
  | cons a as ih =>
    have hn := List.nodup_cons.1 h2
    have ih1 := ih (fun d hd => h1 d (List.mem_cons_of_mem _ hd)) hn.2
    by_cases hu : a.doc.ID = u
    · have hnone : as.filter (fun d => decide (d.doc.ID = u)) = [] := by
        rw [List.filter_eq_nil_iff]
        intro d hd hdu
        have hdu1 : d.doc.ID = u := of_decide_eq_true hdu
        apply hn.1
        refine List.mem_map.2 ⟨d, hd, ?_⟩
        show d._id = a._id
        rw [h1 d (List.mem_cons_of_mem _ hd), h1 a (List.mem_cons_self _ _), hdu1, hu]
      simp [List.filter_cons, hu, hnone]
    · simp [List.filter_cons, hu, ih1]

theorem findOne_eq_none {u : Int} {c : List personDoc} (h : ∀ d ∈ c, d.doc.ID ≠ u) :
    findOne u c = none := by
  induction c with
  | nil => rfl
  | cons a as ih =>
    have ha : ¬ a.doc.ID = u := h a (List.mem_cons_self _ _)
    simp only [findOne, ha, if_false]
    exact ih (fun d hd => h d (List.mem_cons_of_mem _ hd))

theorem error_reply_ne_guidance (e : String) :
    "Error while saving message (" ++ e ++ ")" ≠ "Set position first" := by
  intro h
  have h2 := congrArg String.data h
  simp at h2

/-! ## The query on `messages` -/

theorem findNear_length_le (env : Env) (center : float64 × float64) (maxDistance : ℚ)
    (limit : Nat) (ms : List message) :
    (findNear env center maxDistance limit ms).length ≤ limit := by
  unfold findNear
  exact List.length_take_le _ _

theorem findNear_mem {env : Env} {center : float64 × float64} {maxDistance : ℚ}
    {limit : Nat} {ms : List message} {m : message}
    (h : m ∈ findNear env center maxDistance limit ms) :
    m ∈ ms ∧ env.dist center m.Loc.Coordinates ≤ maxDistance := by
  unfold findNear at h
  have h1 := List.mem_of_mem_take h
  have h2 := (List.perm_insertionSort laterFirst _).mem_iff.1 h1
  rw [List.mem_filter] at h2
  exact ⟨h2.1, of_decide_eq_true h2.2⟩

theorem findNear_sorted (env : Env) (center : float64 × float64) (maxDistance : ℚ)
    (limit : Nat) (ms : List message) :
    (findNear env center maxDistance limit ms).Pairwise (fun a b => b.When ≤ a.When) := by
  unfold findNear
  have h : List.Sorted laterFirst
      ((ms.filter (fun m => decide (env.dist center m.Loc.Coordinates ≤ maxDistance))).insertionSort
        laterFirst) := List.sorted_insertionSort laterFirst _
  exact List.Pairwise.sublist (List.take_sublist _ _) h

theorem flatMap_sendReply (chat : Int) (f : message → String) (l : List message) :
    l.flatMap (fun m => sendReply chat (f m)) = l.map (fun m => { chat := chat, text := f m }) := by
  induction l with
  | nil => rfl
  | cons a as ih => simp [List.flatMap_cons, sendReply, ← ih]

theorem allMsgs_located (env : Env) (db : Database) (msg : Message) (p : person)
    (hp : findOne msg.FromID db.persons = some p) :
    allMsgs env db msg none none =
      (findNear env p.Loc.Coordinates 200 100 db.messages).map
        (fun m => { chat := msg.ChatID, text := body env m }) := by
  simp only [allMsgs, getLocation, hp]
  exact flatMap_sendReply _ _ _

/-- What the query of `allMsgs` does establish for a user whose stored record is `p`: at
most 100 replies, and when the query succeeds the replies are the renderings of at most
100 messages of the store, each passing the filter of the index, `dist` of the two
stored pairs at most 200. -/
theorem allMsgs_limit_and_filter (env : Env) (db : Database) (msg : Message) (p : person)
    (err2 : error) (hp : findOne msg.FromID db.persons = some p) :
    (allMsgs env db msg none err2).length ≤ 100 ∧
      (err2 = none → ∃ result : List message,
        allMsgs env db msg none err2
            = result.map (fun m => { chat := msg.ChatID, text := body env m }) ∧
          result.length ≤ 100 ∧
          ∀ m ∈ result, m ∈ db.messages ∧ env.dist p.Loc.Coordinates m.Loc.Coordinates ≤ 200) := by
  cases err2 with
  | some e =>
    refine ⟨?_, fun h => nomatch h⟩
    simp [allMsgs, getLocation, hp, sendReply]
  | none =>
    have hl := findNear_length_le env p.Loc.Coordinates 200 100 db.messages
    refine ⟨?_, fun _ => ⟨findNear env p.Loc.Coordinates 200 100 db.messages,
      allMsgs_located env db msg p hp, hl, fun m hm => findNear_mem hm⟩⟩
    rw [allMsgs_located env db msg p hp, List.length_map]
    exact hl

theorem textHandler_located (db : Database) (msg : Message) (now now2 : Time) (p : person)
    (hp : findOne msg.FromID db.persons = some p) :
    textHandler db msg now now2 none none =
      ({ db with messages := db.messages ++
          [{ ID := NewObjectIdWithTime now, Text := msg.Text, When := bsonTime now2,
             Loc := p.Loc }] },
        [{ chat := msg.ChatID, text := "ok" }]) := by
  simp [textHandler, getLocation, hp, insert, sendReply]

theorem getElem?_of_append_left {α : Type} (l l2 : List α) (a : α) (i : Nat)
    (h : l[i]? = some a) : (l ++ l2)[i]? = some a := by
  have hi : i < l.length := by
    by_contra hc
    rw [List.getElem?_eq_none (Nat.le_of_not_lt hc)] at h
    exact Option.noConfusion h
  rw [List.getElem?_append_left hi]
  exact h

/-! ## The invariant along a run of `main` -/

theorem meHandler_persons (db : Database) (msg : Message) (loc : Location) (now : Time) :
    (meHandler db msg loc now none).1.persons =
      upsert msg.FromID
        { ID := msg.FromID, Lat := 0, Lon := 0, Loc := pointOf loc, When := now } db.persons := rfl

theorem meHandler_messages (db : Database) (msg : Message) (loc : Location) (now : Time)
    (err : error) : (meHandler db msg loc now err).1.messages = db.messages := by
  cases err <;> rfl

theorem meHandler_wellKeyed (db : Database) (msg : Message) (loc : Location) (now : Time)
    (err : error) (h : WellKeyed db.persons) :
    WellKeyed (meHandler db msg loc now err).1.persons := by
  cases err with
  | some e => exact h
  | none =>
    rw [meHandler_persons]
    exact wellKeyed_upsert
      { ID := msg.FromID, Lat := 0, Lon := 0, Loc := pointOf loc, When := now } db.persons h

theorem textHandler_persons (db : Database) (msg : Message) (now now2 : Time)
    (findErr err2 : error) : (textHandler db msg now now2 findErr err2).1.persons = db.persons := by
  unfold textHandler
  split
  · rfl
  · cases err2 <;> rfl

theorem textHandler_messages_append (db : Database) (msg : Message) (now now2 : Time)
    (findErr err2 : error) :
    ∃ l, (textHandler db msg now now2 findErr err2).1.messages = db.messages ++ l := by
  unfold textHandler
  split
  · exact ⟨[], by simp⟩
  · cases err2 with
    | some e => exact ⟨[], by simp⟩
    | none => exact ⟨_, rfl⟩

theorem dispatch_wellKeyed (env : Env) (db : Database) (ev : Event)
    (h : WellKeyed db.persons) : WellKeyed (dispatch env db ev).1.persons := by
  unfold dispatch
  split
  · exact h
  · split
    · exact h
    · split
      · exact h
      · split
        · exact meHandler_wellKeyed _ _ _ _ _ h
        · split
          · rw [textHandler_persons]; exact h
          · exact h

theorem dispatch_messages_append (env : Env) (db : Database) (ev : Event) :
    ∃ l, (dispatch env db ev).1.messages = db.messages ++ l := by
  unfold dispatch
  split
  · exact ⟨[], by simp⟩
  · split
    · exact ⟨[], by simp⟩
    · split
      · exact ⟨[], by simp⟩
      · split
        · exact ⟨[], by simp [meHandler_messages]⟩
        · split
          · exact textHandler_messages_append _ _ _ _ _ _
          · exact ⟨[], by simp⟩

theorem run_wellKeyed (env : Env) (evs : List Event) (db : Database)
    (h : WellKeyed db.persons) : WellKeyed (run env evs db).1.persons := by
  induction evs generalizing db with
  | nil => exact h
  | cons ev evs ih => exact ih _ (dispatch_wellKeyed env db ev h)

theorem run_messages_append (env : Env) (evs : List Event) (db : Database) :
    ∃ l, (run env evs db).1.messages = db.messages ++ l := by
  induction evs generalizing db with
  | nil => exact ⟨[], by simp [run]⟩
  | cons ev evs ih =>
    obtain ⟨l1, h1⟩ := dispatch_messages_append env db ev
    obtain ⟨l2, h2⟩ := ih (dispatch env db ev).1
    refine ⟨l1 ++ l2, ?_⟩
    simp only [run]
    rw [h2, h1, List.append_assoc]

theorem wellKeyed_empty : WellKeyed Database.empty.persons := by
  simp [WellKeyed, Database.empty]

theorem setLocations_wellKeyed (u : Int) (evs : List (Int × Location × Time)) (db : Database)
    (h : WellKeyed db.persons) : WellKeyed (setLocations u evs db).persons := by
  induction evs generalizing db with
  | nil => exact h
  | cons e rest ih =>
    obtain ⟨c, loc, now⟩ := e
    exact ih _ (meHandler_wellKeyed _ _ _ _ _ h)

theorem setLocations_concat (u : Int) (evs : List (Int × Location × Time))
    (e : Int × Location × Time) (db : Database) :
    setLocations u (evs ++ [e]) db =
      (meHandler (setLocations u evs db)
        { FromID := u, ChatID := e.1, Text := "", Location := some e.2.1 } e.2.1 e.2.2 none).1 := by
  induction evs generalizing db with
  | nil => obtain ⟨c, loc, now⟩ := e; rfl
  | cons a rest ih =>
    obtain ⟨c, loc, now⟩ := a
    simp only [List.cons_append, setLocations]
    exact ih _

/-! ## Claims -/

/-- C1: after any run of `main` from the empty store, one or more position updates of
user `u` whose upserts succeed are followed by a `getLocation` for `u` that returns no
error and exactly the position built from the last update, the "Point" whose two
coordinates are the latitude and the longitude of that update, and the collection
`persons` holds at most one record whose `id` is `u`. -/
theorem setLocation_then_getLocation (env : Env) (before : List Event) (u : Int)
    (evs : List (Int × Location × Time)) (h : evs ≠ []) :
    getLocation (setLocations u evs (run env before Database.empty).1) u none
        = ({ type := "Point",
             Coordinates := ((evs.getLast h).2.1.Latitude, (evs.getLast h).2.1.Longitude) },
           none) ∧
      ((setLocations u evs (run env before Database.empty).1).persons.filter
        (fun d => decide (d.doc.ID = u))).length ≤ 1 := by
  have h0 : WellKeyed (run env before Database.empty).1.persons :=
    run_wellKeyed env before _ wellKeyed_empty
  refine ⟨?_, filter_id_length_le_one u _ (setLocations_wellKeyed u evs _ h0)⟩
  obtain ⟨front, e, rfl⟩ : ∃ front e, evs = front ++ [e] :=
    ⟨evs.dropLast, evs.getLast h, (List.dropLast_append_getLast h).symm⟩
  have hk := setLocations_wellKeyed u front _ h0
  rw [List.getLast_append_singleton]
  simp only [getLocation, setLocations_concat, meHandler_persons]
  rw [findOne_upsert { ID := u, Lat := 0, Lon := 0, Loc := pointOf e.2.1, When := e.2.2 } _ hk.1]
  rfl

/-- C1, at a concrete run: user 7 reports latitude 52, longitude 13 and then latitude 48,
longitude 2, after another user reported a position; the position returned is the
second one. -/
theorem setLocation_then_getLocation_witness :
    getLocation (setLocations 7
        [(70, { Longitude := 13, Latitude := 52 }, 5), (70, { Longitude := 2, Latitude := 48 }, 9)]
        (run Env.sample
          [{ Message := some { FromID := 8, ChatID := 80, Text := "",
                               Location := some { Longitude := 1, Latitude := 1 } },
             now := 1, now2 := 1, findErr := none, storeErr := none }] Database.empty).1) 7 none
        = ({ type := "Point", Coordinates := (48, 2) }, none) ∧
      ((setLocations 7
        [(70, { Longitude := 13, Latitude := 52 }, 5), (70, { Longitude := 2, Latitude := 48 }, 9)]
        (run Env.sample
          [{ Message := some { FromID := 8, ChatID := 80, Text := "",
                               Location := some { Longitude := 1, Latitude := 1 } },
             now := 1, now2 := 1, findErr := none, storeErr := none }] Database.empty).1).persons.filter
        (fun d => decide (d.doc.ID = 7))).length ≤ 1 :=
  setLocation_then_getLocation Env.sample _ 7 _ (by simp)

/-- C2: for a user with no record in `persons` and a non-empty text, `textHandler` leaves
the store as it was (so `messages` is unchanged) and sends exactly one reply, the
guidance "Set position first", whatever the outcome of the store calls; that reply is
not the store-error reply. -/
theorem textHandler_without_location (db : Database) (msg : Message) (now now2 : Time)
    (findErr err2 : error) (hnone : ∀ d ∈ db.persons, d.doc.ID ≠ msg.FromID)
    (htext : msg.Text ≠ "") :
    textHandler db msg now now2 findErr err2
        = (db, [{ chat := msg.ChatID, text := "Set position first" }]) ∧
      (textHandler db msg now now2 findErr err2).1.messages = db.messages ∧
      ∀ e : String, ({ chat := msg.ChatID, text := "Error while saving message (" ++ e ++ ")" } : Reply)
        ∉ (textHandler db msg now now2 findErr err2).2 := by
  have _ := htext
  have hfind : findOne msg.FromID db.persons = none := findOne_eq_none hnone
  have hmain : textHandler db msg now now2 findErr err2
      = (db, [{ chat := msg.ChatID, text := "Set position first" }]) := by
    cases findErr <;> simp [textHandler, getLocation, hfind, sendReply]
  refine ⟨hmain, by rw [hmain], fun e => ?_⟩
  rw [hmain]
  simp only [List.mem_singleton, Reply.mk.injEq, true_and]
  exact error_reply_ne_guidance e

/-- C2, at a concrete input: user 7 posts "hello" to the empty store. -/
theorem textHandler_without_location_witness :
    textHandler Database.empty { FromID := 7, ChatID := 70, Text := "hello", Location := none }
        1 2 none none
        = (Database.empty, [{ chat := 70, text := "Set position first" }]) ∧
      (textHandler Database.empty { FromID := 7, ChatID := 70, Text := "hello", Location := none }
        1 2 none none).1.messages = Database.empty.messages ∧
      ∀ e : String, ({ chat := 70, text := "Error while saving message (" ++ e ++ ")" } : Reply)
        ∉ (textHandler Database.empty
            { FromID := 7, ChatID := 70, Text := "hello", Location := none } 1 2 none none).2 :=
  textHandler_without_location Database.empty
    { FromID := 7, ChatID := 70, Text := "hello", Location := none } 1 2 none none
    (by simp [Database.empty]) (by decide)

/-- C3 (what the code does): user 1 posts "hello" at latitude 13.088, longitude 80.27,
and user 7 stands at latitude 13.08, longitude 80.27, about 890 meters away. The
records hold the pairs latitude first, and the query reads index 0 as the longitude:
it measures the pairs (13.08, 80.27) and (13.088, 80.27), which as longitude and
latitude are about 150 meters apart. For every distance that puts those two within
200 meters and the two real positions beyond 200 meters, `allMsgs` for user 7 sends
"hello", a message whose position is not within 200 meters of the position of user 7. -/
theorem allMsgs_renders_message_beyond_radius (env : Env)
    (hindex : env.dist (13.08, 80.27) (13.088, 80.27) ≤ 200)
    (hreal : 200 < env.dist (80.27, 13.08) (80.27, 13.088)) :
    allMsgs env Far.db Sample.all none none
        = [{ chat := 70,
             text := body env { ID := NewObjectIdWithTime 2000000000, Text := "hello",
                                When := 2000000000,
                                Loc := { type := "Point", Coordinates := (13.088, 80.27) } } }] ∧
      getLocation Far.db 7 none = ({ type := "Point", Coordinates := (13.08, 80.27) }, none) ∧
      ¬ env.dist Far.userLoc.lonLat Far.posterLoc.lonLat ≤ 200 := by
  have hdb : Far.db =
      { persons :=
          [{ _id := 1, doc := { ID := 1, Lat := 0, Lon := 0,
                                Loc := { type := "Point", Coordinates := (13.088, 80.27) },
                                When := 1000000000 } },
           { _id := 7, doc := { ID := 7, Lat := 0, Lon := 0,
                                Loc := { type := "Point", Coordinates := (13.08, 80.27) },
                                When := 3000000000 } }]
        messages :=
          [{ ID := NewObjectIdWithTime 2000000000, Text := "hello", When := 2000000000,
             Loc := { type := "Point", Coordinates := (13.088, 80.27) } }] } := by
    rfl
  have hp : findOne Sample.all.FromID Far.db.persons
      = some { ID := 7, Lat := 0, Lon := 0,
               Loc := { type := "Point", Coordinates := (13.08, 80.27) },
               When := 3000000000 } := by
    rw [hdb]; rfl
  refine ⟨?_, ?_, not_le.2 hreal⟩
  · rw [allMsgs_located env Far.db Sample.all _ hp, hdb]
    simp only [findNear, List.filter_cons, decide_eq_true hindex, if_true, List.filter_nil,
      List.insertionSort, List.orderedInsert, List.take, List.map_cons, List.map_nil]
    rfl
  · rw [hdb]; rfl

/-- C3, at the distance `Env.grid`: it puts the two pairs the query measures about 152
meters apart and the two real positions about 890 meters apart. -/
theorem allMsgs_renders_message_beyond_radius_witness :
    (Env.grid.dist (13.08, 80.27) (13.088, 80.27) ≤ 200 ∧
        200 < Env.grid.dist (80.27, 13.08) (80.27, 13.088)) ∧
      (allMsgs Env.grid Far.db Sample.all none none
          = [{ chat := 70,
               text := body Env.grid { ID := NewObjectIdWithTime 2000000000, Text := "hello",
                                       When := 2000000000,
                                       Loc := { type := "Point",
                                                Coordinates := (13.088, 80.27) } } }] ∧
        getLocation Far.db 7 none = ({ type := "Point", Coordinates := (13.08, 80.27) }, none) ∧
        ¬ Env.grid.dist Far.userLoc.lonLat Far.posterLoc.lonLat ≤ 200) :=
  ⟨⟨by norm_num [Env.grid, absDiff, cosDeg], by norm_num [Env.grid, absDiff, cosDeg]⟩,
    allMsgs_renders_message_beyond_radius Env.grid
      (by norm_num [Env.grid, absDiff, cosDeg]) (by norm_num [Env.grid, absDiff, cosDeg])⟩

/-- C4: for a user with a stored position, when the query succeeds the replies of
`allMsgs` are the renderings, in order, of a list of messages of the store in which no
message comes before a message with a later timestamp. -/
theorem allMsgs_most_recent_first (env : Env) (db : Database) (msg : Message) (p : person)
    (hp : findOne msg.FromID db.persons = some p) :
    ∃ result : List message,
      allMsgs env db msg none none
          = result.map (fun m => { chat := msg.ChatID, text := body env m }) ∧
        (∀ m ∈ result, m ∈ db.messages) ∧
        result.Pairwise (fun earlierSent laterSent => laterSent.When ≤ earlierSent.When) :=
  ⟨findNear env p.Loc.Coordinates 200 100 db.messages, allMsgs_located env db msg p hp,
    fun _ hm => (findNear_mem hm).1, findNear_sorted env _ _ _ _⟩

/-- C4, at a concrete store whose log is in posting order: the replies come latest first. -/
theorem allMsgs_most_recent_first_witness :
    findOne Sample.all.FromID Sample.db.persons = some Sample.person7 ∧
      allMsgs Env.sample Sample.db Sample.all none none
        = [{ chat := 70, text := "[3] second" }, { chat := 70, text := "[1] first" }] ∧
      ∃ result : List message,
        allMsgs Env.sample Sample.db Sample.all none none
            = result.map (fun m => { chat := Sample.all.ChatID, text := body Env.sample m }) ∧
          (∀ m ∈ result, m ∈ Sample.db.messages) ∧
          result.Pairwise (fun earlierSent laterSent => laterSent.When ≤ earlierSent.When) :=
  ⟨by decide, by decide,
    allMsgs_most_recent_first Env.sample Sample.db Sample.all Sample.person7 (by decide)⟩

/-- C5: a message inserted by `textHandler` carries the position `p.Loc` the poster has
in the store at that moment, and it stays in the log at the same place with the same
identifier, text, timestamp and position after any later run of updates; `meHandler`
leaves `messages` as it is, and `textHandler` leaves `persons` as it is and only adds
to the end of `messages`. -/
theorem posted_message_is_immutable (env : Env) (db : Database) (msg : Message)
    (now now2 : Time) (p : person) (later : List Event)
    (hp : findOne msg.FromID db.persons = some p) :
    (textHandler db msg now now2 none none).1.messages
        = db.messages ++ [{ ID := NewObjectIdWithTime now, Text := msg.Text,
                            When := bsonTime now2, Loc := p.Loc }] ∧
      (run env later (textHandler db msg now now2 none none).1).1.messages[db.messages.length]?
        = some { ID := NewObjectIdWithTime now, Text := msg.Text,
                 When := bsonTime now2, Loc := p.Loc } ∧
      (∀ (db0 : Database) (msg0 : Message) (loc0 : Location) (t : Time) (err : error),
        (meHandler db0 msg0 loc0 t err).1.messages = db0.messages) ∧
      (∀ (db0 : Database) (msg0 : Message) (t t2 : Time) (findErr err2 : error),
        (textHandler db0 msg0 t t2 findErr err2).1.persons = db0.persons ∧
        ∃ added, (textHandler db0 msg0 t t2 findErr err2).1.messages = db0.messages ++ added) := by
  have h1 : (textHandler db msg now now2 none none).1.messages
      = db.messages ++ [{ ID := NewObjectIdWithTime now, Text := msg.Text,
                          When := bsonTime now2, Loc := p.Loc }] := by
    rw [textHandler_located db msg now now2 p hp]
  refine ⟨h1, ?_, meHandler_messages, fun db0 msg0 t t2 findErr err2 =>
    ⟨textHandler_persons db0 msg0 t t2 findErr err2,
      textHandler_messages_append db0 msg0 t t2 findErr err2⟩⟩
  obtain ⟨l, hl⟩ := run_messages_append env later (textHandler db msg now now2 none none).1
  rw [hl]
  apply getElem?_of_append_left
  rw [h1]
  simp

/-- C5, at a concrete run: user 7 posts "hello" at latitude 52, longitude 13, then moves
to latitude 0, longitude 0 and posts again; the first message still carries the first
position. -/
theorem posted_message_is_immutable_witness :
    findOne Sample.hello.FromID Sample.db.persons = some Sample.person7 ∧
      (run Env.sample Sample.later
          (textHandler Sample.db Sample.hello 5000000000 5000000000 none none).1).1.messages[3]?
        = some { ID := NewObjectIdWithTime 5000000000, Text := "hello",
                 When := bsonTime 5000000000,
                 Loc := { type := "Point", Coordinates := (52, 13) } } ∧
      ((run Env.sample Sample.later
          (textHandler Sample.db Sample.hello 5000000000 5000000000 none none).1).1.messages.map
        (fun m => m.Loc.Coordinates))[4]? = some (0, 0) :=
  ⟨by decide,
    (posted_message_is_immutable Env.sample Sample.db Sample.hello 5000000000 5000000000
      Sample.person7 Sample.later (by decide)).2.1,
    by decide⟩

/-- C6 (what the code does): for the position update with latitude 52.52 and longitude
13.405, the record `meHandler` stores has type "Point" and its coordinates are in
latitude-first order: index 0 holds the latitude, index 1 the longitude, and index 0
differs from the longitude. -/
theorem meHandler_stores_latitude_first :
    (meHandler Database.empty
        { FromID := 7, ChatID := 70, Text := "",
          Location := some { Longitude := 13.405, Latitude := 52.52 } }
        { Longitude := 13.405, Latitude := 52.52 } 0 none).1.persons
        = [{ _id := 7, doc := { ID := 7, Lat := 0, Lon := 0,
                                Loc := { type := "Point", Coordinates := (52.52, 13.405) },
                                When := 0 } }] ∧
      (52.52 : float64) ≠ 13.405 := by
  refine ⟨rfl, ?_⟩
  norm_num

/-- C7 (what the code does): user 7 posts "hello" and "again" within the same clock
second (5 s + 1 ns and 5 s + 3 ns after the epoch); both inserts succeed and the two
stored messages have the same `ID`. -/
theorem textHandler_same_second_same_ID :
    ((textHandler (textHandler Sample.db Sample.hello 5000000001 5000000002 none none).1
        Sample.again 5000000003 5000000004 none none).1.messages.drop 3).map
        (fun m => (m.ID, m.Text))
      = [([0, 0, 0, 5, 0, 0, 0, 0, 0, 0, 0, 0], "hello"),
         ([0, 0, 0, 5, 0, 0, 0, 0, 0, 0, 0, 0], "again")] := by
  decide

/-- C8 (counterexample): the position update with latitude 91 is out of range, yet
`meHandler` writes its record to `persons` and sends "Position set". -/
theorem meHandler_out_of_range_counterexample :
    ((91 : float64) < -90 ∨ (90 : float64) < 91) ∧
      (meHandler Database.empty
        { FromID := 7, ChatID := 70, Text := "",
          Location := some { Longitude := 0, Latitude := 91 } }
        { Longitude := 0, Latitude := 91 } 0 none).1.persons ≠ Database.empty.persons ∧
      (meHandler Database.empty
        { FromID := 7, ChatID := 70, Text := "",
          Location := some { Longitude := 0, Latitude := 91 } }
        { Longitude := 0, Latitude := 91 } 0 none).2 = [{ chat := 70, text := "Position set" }] := by
  refine ⟨Or.inr (by norm_num), by decide, rfl⟩

/-- C8 (amended): `meHandler` does not look at the coordinates: in any store reached by
`main` from the empty database, for every position update whose upsert succeeds,
whatever its latitude and longitude, the only reply is "Position set", the record is
written, so that a following `getLocation` of the user returns the position built from
that latitude and longitude, and `messages` is untouched. -/
theorem meHandler_accepts_any_coordinates (env : Env) (before : List Event) (msg : Message)
    (loc : Location) (now : Time) :
    (meHandler (run env before Database.empty).1 msg loc now none).2
        = [{ chat := msg.ChatID, text := "Position set" }] ∧
      getLocation (meHandler (run env before Database.empty).1 msg loc now none).1 msg.FromID none
        = ({ type := "Point", Coordinates := (loc.Latitude, loc.Longitude) }, none) ∧
      (meHandler (run env before Database.empty).1 msg loc now none).1.messages
        = (run env before Database.empty).1.messages := by
  have h0 : WellKeyed (run env before Database.empty).1.persons :=
    run_wellKeyed env before _ wellKeyed_empty
  refine ⟨rfl, ?_, rfl⟩
  simp only [getLocation, meHandler_persons]
  rw [findOne_upsert { ID := msg.FromID, Lat := 0, Lon := 0, Loc := pointOf loc, When := now }
    _ h0.1]
  rfl

/-- C9 (what the code does): when the upsert of a position update fails, `meHandler`
leaves the store as it was and still sends the confirmation "Position set" as its only
reply. -/
theorem meHandler_confirms_failed_upsert :
    meHandler Sample.db Sample.move { Longitude := 0, Latitude := 0 } 6000000000
        (some "no reachable servers")
      = (Sample.db, [{ chat := 70, text := "Position set" }]) := by
  decide

/-- C10 (counterexample): for the same store and update, two different store errors
give two different reply texts, in `textHandler` and in `allMsgs`; the reply of
`allMsgs` is the text of the error. -/
theorem store_error_reply_counterexample :
    (textHandler Sample.db Sample.hello 1 2 none (some "no reachable servers")).2
        ≠ (textHandler Sample.db Sample.hello 1 2 none (some "EOF")).2 ∧
      allMsgs Env.sample Sample.db Sample.all none (some "no reachable servers")
        ≠ allMsgs Env.sample Sample.db Sample.all none (some "EOF") ∧
      allMsgs Env.sample Sample.db Sample.all none (some "no reachable servers")
        = [{ chat := 70, text := "no reachable servers" }] := by
  decide

/-- C10 (amended): for a user with a stored position, a failed insert makes
`textHandler` leave the store as it was and send one reply,
"Error while saving message (" followed by the text of the error and ")", and a failed
query makes `allMsgs` send one reply, the text of the error. -/
theorem store_error_reply_carries_error_text (env : Env) (db : Database) (msg : Message)
    (now now2 : Time) (p : person) (e : String)
    (hp : findOne msg.FromID db.persons = some p) :
    textHandler db msg now now2 none (some e)
        = (db, [{ chat := msg.ChatID, text := "Error while saving message (" ++ e ++ ")" }]) ∧
      allMsgs env db msg none (some e) = [{ chat := msg.ChatID, text := e }] := by
  simp [textHandler, allMsgs, getLocation, hp, sendReply]

/-- C10 (amended), at a concrete store and error. -/
theorem store_error_reply_carries_error_text_witness :
    findOne Sample.hello.FromID Sample.db.persons = some Sample.person7 ∧
      textHandler Sample.db Sample.hello 1 2 none (some "EOF")
        = (Sample.db, [{ chat := 70, text := "Error while saving message (EOF)" }]) ∧
      allMsgs Env.sample Sample.db Sample.hello none (some "EOF") = [{ chat := 70, text := "EOF" }] :=
  ⟨by decide,
    store_error_reply_carries_error_text Env.sample Sample.db Sample.hello 1 2 Sample.person7
      "EOF" (by decide)⟩

end SimpleTgBot
